import Mathlib

/-!
Shallow embedding of a minimal FastAPI service:
configuration loading (`src/config.py`), the request handlers
(`src/api/health.py`, `src/api/hello.py`) and the application wiring
(`src/main.py`), together with theorems about their behaviour.
-/

namespace FastApiCloud

/-- Process environment: a partial map from variable names to values,
mirroring `os.environ`. -/
abbrev Env := String → Option String

/-- Model of `os.getenv(name, default)`. -/
def getenv (env : Env) (name dflt : String) : String :=
  (env name).getD dflt

/-- ASCII whitespace characters stripped by Python `int()` before parsing. -/
def isPySpace (c : Char) : Bool :=
  c = ' ' || c = '\t' || c = '\n' || c = '\r' || c = '\x0b' || c = '\x0c'

/-- ASCII decimal digit test. -/
def isPyDigit (c : Char) : Bool := '0' ≤ c && c ≤ '9'

/-- After a leading digit of a Python integer literal: further digits, with a
single underscore allowed between digit groups. -/
def digitTail : List Char → Bool
  | [] => true
  | '_' :: [] => false
  | '_' :: c :: cs => isPyDigit c && digitTail cs
  | c :: cs => isPyDigit c && digitTail cs

/-- Digit part of a Python integer literal: a digit, then `digitTail`. -/
def goodDigits : List Char → Bool
  | [] => false
  | c :: cs => isPyDigit c && digitTail cs

/-- Numeric value of a list of ASCII digits. -/
def digitsVal (l : List Char) : Nat :=
  l.foldl (fun a c => a * 10 + (c.toNat - 48)) 0

/-- Model of Python `int(s)` in base 10: strip surrounding whitespace, read an
optional sign, then digits with single underscores allowed between digit
groups; `none` where Python raises `ValueError`. -/
def pythonInt (s : String) : Option Int :=
  let core := ((s.data.dropWhile isPySpace).reverse.dropWhile isPySpace).reverse
  let signed : Bool × List Char :=
    match core with
    | '+' :: rest => (false, rest)
    | '-' :: rest => (true, rest)
    | rest => (false, rest)
  if goodDigits signed.2 then
    let v : Int := digitsVal (signed.2.filter (fun c => c ≠ '_'))
    some (if signed.1 then -v else v)
  else none

/-- Model of `str.lower()`, restricted to the ASCII case mapping. -/
def pyLower (s : String) : String := ⟨s.data.map Char.toLower⟩

/-- Model of `str.split(",")` on character lists: split at every comma,
keeping empty pieces and all whitespace. -/
def splitComma : List Char → List (List Char)
  | [] => [[]]
  | c :: cs =>
    if c = ',' then [] :: splitComma cs
    else
      match splitComma cs with
      | [] => [[c]]
      | h :: t => (c :: h) :: t

/-- Model of `str.split(",")` on strings. -/
def pySplitComma (s : String) : List String :=
  (splitComma s.data).map (fun l => ⟨l⟩)

/-- Joining character lists with a comma between consecutive pieces: the
reference meaning of "comma-split", used to characterize `splitComma`. -/
def joinComma : List (List Char) → List Char
  | [] => []
  | [x] => x
  | x :: xs => x ++ ',' :: joinComma xs

/-- Application settings, mirroring class `Settings` of `src/config.py`. -/
structure Settings where
  ENVIRONMENT : String
  DEBUG : Bool
  LOG_LEVEL : String
  API_PREFIX : String
  API_VERSION : String
  CORS_ORIGINS : List String
  HOST : String
  PORT : Int
deriving Repr, DecidableEq

/-- Model of `Settings.is_production`. -/
def Settings.is_production (s : Settings) : Bool := s.ENVIRONMENT == "production"

/-- Model of `Settings.is_development`. -/
def Settings.is_development (s : Settings) : Bool := s.ENVIRONMENT == "development"

/-- Evaluation of the `Settings` class body of `src/config.py`: each attribute
is read from its environment variable with its default; a malformed `PORT`
makes `int("...")` raise, modelled as `Except.error`. -/
def loadSettings (env : Env) : Except String Settings :=
  match pythonInt (getenv env "PORT" "8080") with
  | none =>
      Except.error ("invalid literal for int() with base 10: " ++ getenv env "PORT" "8080")
  | some port =>
      Except.ok
        { ENVIRONMENT := getenv env "ENVIRONMENT" "development"
          DEBUG := pyLower (getenv env "DEBUG" "false") == "true"
          LOG_LEVEL := getenv env "LOG_LEVEL" "INFO"
          API_PREFIX := getenv env "API_PREFIX" "/api"
          API_VERSION := getenv env "API_VERSION" "1.0.0"
          CORS_ORIGINS := pySplitComma (getenv env "CORS_ORIGINS" "*")
          HOST := getenv env "HOST" "0.0.0.0"
          PORT := port }

/-- Model of `get_settings` of `src/config.py`: the `lru_cache` state is
passed explicitly; `s` is the process-wide `Settings` value computed at
module import. -/
def get_settings (s : Settings) : Option Settings → Settings × Option Settings
  | none => (s, some s)
  | some c => (c, some c)

/-- Result of the n-th call to `get_settings` within one process run that
starts from an empty cache. -/
def nthCall (s : Settings) : Nat → Settings × Option Settings
  | 0 => get_settings s none
  | n + 1 => get_settings s (nthCall s n).2

/-- The environment with no variables set. -/
def emptyEnv : Env := fun _ => none

/-- The settings obtained when no environment variable is set. -/
def defaultSettings : Settings :=
  { ENVIRONMENT := "development"
    DEBUG := false
    LOG_LEVEL := "INFO"
    API_PREFIX := "/api"
    API_VERSION := "1.0.0"
    CORS_ORIGINS := ["*"]
    HOST := "0.0.0.0"
    PORT := 8080 }

/-- Response model of `src/api/health.py`. -/
structure HealthResponse where
  status : String
  message : String
deriving Repr, DecidableEq

/-- Response model of `src/api/hello.py`. -/
structure HelloResponse where
  message : String
deriving Repr, DecidableEq

/-- Body of the root endpoint of `src/main.py`. -/
structure RootResponse where
  message : String
  version : String
  environment : String
deriving Repr, DecidableEq

/-- Handler `get_health` of `src/api/health.py`. -/
def get_health : HealthResponse := { status := "healthy", message := "OK" }

/-- Handler `get_hello` of `src/api/hello.py`. -/
def get_hello : HelloResponse := { message := "Hello, World!" }

/-- Handler `get_hello_name` of `src/api/hello.py`: the f-string
`f"Hello, {name}!"`. -/
def get_hello_name (name : String) : HelloResponse :=
  { message := "Hello, " ++ name ++ "!" }

/-- Handler `root` of `src/main.py`. -/
def root (s : Settings) : RootResponse :=
  { message := "OK 🚀", version := s.API_VERSION, environment := s.ENVIRONMENT }

/-- An HTTP request, reduced to what the routing layer inspects. -/
structure Request where
  method : String
  path : String
deriving Repr, DecidableEq

/-- The possible response bodies of the application. -/
inductive Body where
  | health : HealthResponse → Body
  | hello : HelloResponse → Body
  | rootB : RootResponse → Body
  | docsPage : Body
  | redocPage : Body
  | notFound : Body
deriving Repr, DecidableEq

/-- An HTTP response: status code and body. -/
structure Response where
  status : Nat
  body : Body
deriving Repr, DecidableEq

/-- Modelled from the spec: the routing dispatch of the framework, which is
not part of the repository; the route table is the one registered in
`src/main.py` (root at `/`, documentation at `<prefix>/docs` and
`<prefix>/redoc`, the health and hello routers included under
`settings.API_PREFIX`), and an unmatched path is answered 404. -/
def routeGET (s : Settings) (path : List Char) : Response :=
  if path = "/".data then { status := 200, body := Body.rootB (root s) }
  else if path = (s.API_PREFIX ++ "/docs").data then { status := 200, body := Body.docsPage }
  else if path = (s.API_PREFIX ++ "/redoc").data then { status := 200, body := Body.redocPage }
  else if path = (s.API_PREFIX ++ "/health").data then
    { status := 200, body := Body.health get_health }
  else if path = (s.API_PREFIX ++ "/hello").data then
    { status := 200, body := Body.hello get_hello }
  else if (s.API_PREFIX ++ "/hello/").data.isPrefixOf path then
    if path.drop (s.API_PREFIX ++ "/hello/").data.length ≠ []
        ∧ (path.drop (s.API_PREFIX ++ "/hello/").data.length).contains '/' = false then
      { status := 200,
        body := Body.hello (get_hello_name ⟨path.drop (s.API_PREFIX ++ "/hello/").data.length⟩) }
    else { status := 404, body := Body.notFound }
  else { status := 404, body := Body.notFound }

/-- Modelled from the spec: dispatch by method and path; every registered
route is a GET route, and a request matching no registered route is
answered 404. -/
def handleRequest (s : Settings) (r : Request) : Response :=
  if r.method = "GET" then routeGET s r.path.data
  else { status := 404, body := Body.notFound }

/-- The serving loop: each incoming request is dispatched independently
against the immutable settings. -/
def runRequests (s : Settings) : List Request → List Response
  | [] => []
  | r :: rs => handleRequest s r :: runRequests s rs

/-- Outcome of process startup. -/
inductive StartupResult where
  | serving : Settings → StartupResult
  | failed : String → StartupResult
deriving Repr, DecidableEq

/-- Modelled from the spec: startup loads the configuration once and only
then begins serving; a configuration error is fatal and the process never
serves. -/
def startServer (env : Env) : StartupResult :=
  match loadSettings env with
  | Except.error e => StartupResult.failed e
  | Except.ok s => StartupResult.serving s

/-- An environment setting only `PORT`. -/
def portEnv (v : String) : Env := fun k => if k = "PORT" then some v else none

/-- An environment setting only `DEBUG`. -/
def debugEnv (v : String) : Env := fun k => if k = "DEBUG" then some v else none

/-- An environment setting only `CORS_ORIGINS`. -/
def corsEnv (v : String) : Env := fun k => if k = "CORS_ORIGINS" then some v else none

example : loadSettings emptyEnv = Except.ok defaultSettings := rfl

example :
    handleRequest defaultSettings { method := "GET", path := "/api/hello/Alice" } =
      { status := 200, body := Body.hello { message := "Hello, Alice!" } } := rfl
example :
    handleRequest defaultSettings { method := "GET", path := "/api/health" } =
      { status := 200, body := Body.health { status := "healthy", message := "OK" } } := rfl
example :
    handleRequest defaultSettings { method := "GET", path := "/" } =
      { status := 200,
        body := Body.rootB { message := "OK 🚀", version := "1.0.0", environment := "development" } } := rfl
example :
    handleRequest defaultSettings { method := "GET", path := "/api/nope" } =
      { status := 404, body := Body.notFound } := rfl
example :
    handleRequest defaultSettings { method := "GET", path := "/api/hello/a/b" } =
      { status := 404, body := Body.notFound } := rfl
example :
    handleRequest defaultSettings { method := "POST", path := "/" } =
      { status := 404, body := Body.notFound } := rfl
example : startServer (fun k => if k = "PORT" then some "abc" else none) =
    StartupResult.failed "invalid literal for int() with base 10: abc" := rfl

example : pythonInt "8080" = some 8080 := rfl
example : pythonInt "abc" = none := rfl
example : pythonInt " -1_2 " = some (-12) := rfl
example : pythonInt "" = none := rfl
example : pySplitComma "" = [""] := rfl
example : pySplitComma "a, b" = ["a", " b"] := rfl
example : pySplitComma "https://a.com,https://b.com" = ["https://a.com", "https://b.com"] := rfl
example : pyLower "TRUE" = "true" := rfl

section Helpers

/-- Within one run, loading ending in `Except.ok st` determines every field
of `st` from the environment. -/
theorem loadSettings_fields (env : Env) (st : Settings)
    (h : loadSettings env = Except.ok st) :
    st.ENVIRONMENT = getenv env "ENVIRONMENT" "development"
    ∧ st.DEBUG = (pyLower (getenv env "DEBUG" "false") == "true")
    ∧ st.LOG_LEVEL = getenv env "LOG_LEVEL" "INFO"
    ∧ st.API_PREFIX = getenv env "API_PREFIX" "/api"
    ∧ st.API_VERSION = getenv env "API_VERSION" "1.0.0"
    ∧ st.CORS_ORIGINS = pySplitComma (getenv env "CORS_ORIGINS" "*")
    ∧ st.HOST = getenv env "HOST" "0.0.0.0"
    ∧ pythonInt (getenv env "PORT" "8080") = some st.PORT := by
  unfold loadSettings at h
  cases hp : pythonInt (getenv env "PORT" "8080") with
  | none => rw [hp] at h; exact Except.noConfusion h
  | some p =>
    rw [hp] at h
    injection h with h
    subst h
    exact ⟨rfl, rfl, rfl, rfl, rfl, rfl, rfl, rfl⟩

/-- Nonempty strings have nonempty character data. -/
theorem data_ne_nil {s : String} (h : s ≠ "") : s.data ≠ [] := by
  intro hd
  exact h (String.ext hd)

/-- Evaluation of the router at the root path. -/
theorem routeGET_root (s : Settings) :
    routeGET s "/".data = { status := 200, body := Body.rootB (root s) } := by
  unfold routeGET
  rw [if_pos rfl]

/-- Evaluation of the router at the documentation path. -/
theorem routeGET_docs (s : Settings) :
    routeGET s (s.API_PREFIX ++ "/docs").data = { status := 200, body := Body.docsPage } := by
  have c1 : (s.API_PREFIX ++ "/docs").data ≠ "/".data := by
    intro h
    have hL := congrArg List.length h
    rw [String.data_append, List.length_append] at hL
    have e1 : ("/docs".data).length = 5 := rfl
    have e2 : ("/".data).length = 1 := rfl
    omega
  unfold routeGET
  rw [if_neg c1, if_pos rfl]

/-- Evaluation of the router at the alternate documentation path. -/
theorem routeGET_redoc (s : Settings) :
    routeGET s (s.API_PREFIX ++ "/redoc").data = { status := 200, body := Body.redocPage } := by
  have c1 : (s.API_PREFIX ++ "/redoc").data ≠ "/".data := by
    intro h
    have hL := congrArg List.length h
    rw [String.data_append, List.length_append] at hL
    have e1 : ("/redoc".data).length = 6 := rfl
    have e2 : ("/".data).length = 1 := rfl
    omega
  have c2 : (s.API_PREFIX ++ "/redoc").data ≠ (s.API_PREFIX ++ "/docs").data := by
    intro h
    have hL := congrArg List.length h
    rw [String.data_append, String.data_append, List.length_append, List.length_append] at hL
    have e1 : ("/redoc".data).length = 6 := rfl
    have e2 : ("/docs".data).length = 5 := rfl
    omega
  unfold routeGET
  rw [if_neg c1, if_neg c2, if_pos rfl]

/-- Evaluation of the router at the health path. -/
theorem routeGET_health (s : Settings) :
    routeGET s (s.API_PREFIX ++ "/health").data
      = { status := 200, body := Body.health get_health } := by
  have c1 : (s.API_PREFIX ++ "/health").data ≠ "/".data := by
    intro h
    have hL := congrArg List.length h
    rw [String.data_append, List.length_append] at hL
    have e1 : ("/health".data).length = 7 := rfl
    have e2 : ("/".data).length = 1 := rfl
    omega
  have c2 : (s.API_PREFIX ++ "/health").data ≠ (s.API_PREFIX ++ "/docs").data := by
    intro h
    have hL := congrArg List.length h
    rw [String.data_append, String.data_append, List.length_append, List.length_append] at hL
    have e1 : ("/health".data).length = 7 := rfl
    have e2 : ("/docs".data).length = 5 := rfl
    omega
  have c3 : (s.API_PREFIX ++ "/health").data ≠ (s.API_PREFIX ++ "/redoc").data := by
    intro h
    have hL := congrArg List.length h
    rw [String.data_append, String.data_append, List.length_append, List.length_append] at hL
    have e1 : ("/health".data).length = 7 := rfl
    have e2 : ("/redoc".data).length = 6 := rfl
    omega
  unfold routeGET
  rw [if_neg c1, if_neg c2, if_neg c3, if_pos rfl]

/-- Evaluation of the router at the static hello path. -/
theorem routeGET_hello_static (s : Settings) :
    routeGET s (s.API_PREFIX ++ "/hello").data
      = { status := 200, body := Body.hello get_hello } := by
  have c1 : (s.API_PREFIX ++ "/hello").data ≠ "/".data := by
    intro h
    have hL := congrArg List.length h
    rw [String.data_append, List.length_append] at hL
    have e1 : ("/hello".data).length = 6 := rfl
    have e2 : ("/".data).length = 1 := rfl
    omega
  have c2 : (s.API_PREFIX ++ "/hello").data ≠ (s.API_PREFIX ++ "/docs").data := by
    intro h
    have hL := congrArg List.length h
    rw [String.data_append, String.data_append, List.length_append, List.length_append] at hL
    have e1 : ("/hello".data).length = 6 := rfl
    have e2 : ("/docs".data).length = 5 := rfl
    omega
  have c3 : (s.API_PREFIX ++ "/hello").data ≠ (s.API_PREFIX ++ "/redoc").data := by
    intro h
    rw [String.data_append, String.data_append] at h
    have h2 := List.append_cancel_left h
    exact absurd h2 (by decide)
  have c4 : (s.API_PREFIX ++ "/hello").data ≠ (s.API_PREFIX ++ "/health").data := by
    intro h
    rw [String.data_append, String.data_append] at h
    have h2 := List.append_cancel_left h
    exact absurd h2 (by decide)
  unfold routeGET
  rw [if_neg c1, if_neg c2, if_neg c3, if_neg c4, if_pos rfl]

/-- Evaluation of the router at a parameterized hello path whose segment is
nonempty and free of slashes. -/
theorem routeGET_hello_name (s : Settings) (name : String)
    (h1 : name ≠ "") (h2 : name.data.contains '/' = false) :
    routeGET s (s.API_PREFIX ++ "/hello/" ++ name).data
      = { status := 200, body := Body.hello (get_hello_name name) } := by
  have hn : name.data ≠ [] := data_ne_nil h1
  have hlen : 0 < name.data.length := List.length_pos.mpr hn
  have e1 : (s.API_PREFIX ++ "/hello/" ++ name).data
      = (s.API_PREFIX.data ++ "/hello/".data) ++ name.data := by
    rw [String.data_append, String.data_append]
  have e2 : (s.API_PREFIX ++ "/hello/").data = s.API_PREFIX.data ++ "/hello/".data := by
    rw [String.data_append]
  have c1 : (s.API_PREFIX.data ++ "/hello/".data) ++ name.data ≠ "/".data := by
    intro h
    have hL := congrArg List.length h
    rw [List.length_append, List.length_append] at hL
    have g1 : ("/hello/".data).length = 7 := rfl
    have g2 : ("/".data).length = 1 := rfl
    omega
  have c2 : (s.API_PREFIX.data ++ "/hello/".data) ++ name.data
      ≠ (s.API_PREFIX ++ "/docs").data := by
    intro h
    rw [String.data_append] at h
    have hL := congrArg List.length h
    rw [List.length_append, List.length_append, List.length_append] at hL
    have g1 : ("/hello/".data).length = 7 := rfl
    have g2 : ("/docs".data).length = 5 := rfl
    omega
  have c3 : (s.API_PREFIX.data ++ "/hello/".data) ++ name.data
      ≠ (s.API_PREFIX ++ "/redoc").data := by
    intro h
    rw [String.data_append] at h
    have hL := congrArg List.length h
    rw [List.length_append, List.length_append, List.length_append] at hL
    have g1 : ("/hello/".data).length = 7 := rfl
    have g2 : ("/redoc".data).length = 6 := rfl
    omega
  have c4 : (s.API_PREFIX.data ++ "/hello/".data) ++ name.data
      ≠ (s.API_PREFIX ++ "/health").data := by
    intro h
    rw [String.data_append] at h
    have hL := congrArg List.length h
    rw [List.length_append, List.length_append, List.length_append] at hL
    have g1 : ("/hello/".data).length = 7 := rfl
    have g2 : ("/health".data).length = 7 := rfl
    omega
  have c5 : (s.API_PREFIX.data ++ "/hello/".data) ++ name.data
      ≠ (s.API_PREFIX ++ "/hello").data := by
    intro h
    rw [String.data_append] at h
    have hL := congrArg List.length h
    rw [List.length_append, List.length_append, List.length_append] at hL
    have g1 : ("/hello/".data).length = 7 := rfl
    have g2 : ("/hello".data).length = 6 := rfl
    omega
  have cpre : ((s.API_PREFIX ++ "/hello/").data.isPrefixOf
      ((s.API_PREFIX.data ++ "/hello/".data) ++ name.data)) = true := by
    rw [e2, List.isPrefixOf_iff_prefix]
    exact List.prefix_append _ _
  have cdrop : ((s.API_PREFIX.data ++ "/hello/".data) ++ name.data).drop
      (s.API_PREFIX ++ "/hello/").data.length = name.data := by
    rw [e2]
    exact List.drop_left _ _
  unfold routeGET
  rw [e1, if_neg c1, if_neg c2, if_neg c3, if_neg c4, if_neg c5, if_pos cpre, cdrop,
    if_pos (And.intro hn h2)]

/-- Serving distributes over request-list concatenation. -/
theorem runRequests_append (s : Settings) (l1 l2 : List Request) :
    runRequests s (l1 ++ l2) = runRequests s l1 ++ runRequests s l2 := by
  induction l1 with
  | nil => rfl
  | cons r rs ih => simp [runRequests, ih]

/-- Serving is the pointwise image of the requests under the handler. -/
theorem runRequests_eq_map (s : Settings) (reqs : List Request) :
    runRequests s reqs = reqs.map (handleRequest s) := by
  induction reqs with
  | nil => rfl
  | cons r rs ih => simp [runRequests, ih]

/-- The comma-split of a character list is never the empty list of pieces. -/
theorem splitComma_ne_nil (l : List Char) : splitComma l ≠ [] := by
  induction l with
  | nil => simp [splitComma]
  | cons c cs ih =>
    unfold splitComma
    cases hr : splitComma cs with
    | nil => exact absurd hr ih
    | cons h t =>
      by_cases hc : c = ','
      · subst hc; simp
      · simp [hc]

/-- Joining pieces onto one leading piece. -/
theorem joinComma_cons_cons (x : List Char) (h : List Char) (t : List (List Char)) :
    joinComma ((x ++ h) :: t) = x ++ joinComma (h :: t) := by
  cases t with
  | nil => rfl
  | cons y ys => simp [joinComma]

/-- Joining with commas is a left inverse of the comma-split: the pieces,
in order, reassemble the input. -/
theorem joinComma_splitComma (l : List Char) : joinComma (splitComma l) = l := by
  induction l with
  | nil => rfl
  | cons c cs ih =>
    unfold splitComma
    cases hr : splitComma cs with
    | nil => exact absurd hr (splitComma_ne_nil cs)
    | cons h t =>
      rw [hr] at ih
      by_cases hc : c = ','
      · subst hc
        rw [if_pos rfl]
        simpa [joinComma] using ih
      · rw [if_neg hc]
        show joinComma (([c] ++ h) :: t) = c :: cs
        rw [joinComma_cons_cons]
        simpa using ih


/-- No piece produced by the comma-split contains a comma. -/
theorem splitComma_no_comma (l : List Char) :
    ∀ p ∈ splitComma l, ',' ∉ p := by
  induction l with
  | nil =>
    intro p hp
    simp [splitComma] at hp
    simp [hp]
  | cons c cs ih =>
    intro p hp
    unfold splitComma at hp
    cases hr : splitComma cs with
    | nil => exact absurd hr (splitComma_ne_nil cs)
    | cons h t =>
      rw [hr] at hp
      by_cases hc : c = ','
      · subst hc
        rw [if_pos rfl] at hp
        rcases List.mem_cons.mp hp with hp | hp
        · simp [hp]
        · exact ih p (by rw [hr]; exact hp)
      · rw [if_neg hc] at hp
        rcases List.mem_cons.mp hp with hp | hp
        · subst hp
          intro hmem
          rcases List.mem_cons.mp hmem with h1 | h1
          · exact hc h1.symm
          · exact ih h (by rw [hr]; exact List.mem_cons_self _ _) h1
        · exact ih p (by rw [hr]; exact List.mem_cons_of_mem _ hp)

end Helpers

section Claims

/-- C1: for every nonempty, slash-free path segment `name`, a GET request to
`<prefix>/hello/{name}` is answered 200 with body message exactly
`"Hello, {name}!"`: the segment appears in the message exactly as received,
with no sanitization, length limit or escaping. -/
theorem claim_hello_name_greeting (s : Settings) (name : String)
    (h1 : name ≠ "") (h2 : name.data.contains '/' = false) :
    handleRequest s { method := "GET", path := s.API_PREFIX ++ "/hello/" ++ name }
      = { status := 200, body := Body.hello { message := "Hello, " ++ name ++ "!" } } := by
  have hr := routeGET_hello_name s name h1 h2
  unfold handleRequest
  rw [if_pos rfl]
  exact hr

/-- Witness for C1: the segment "Alice" under default settings. -/
theorem claim_hello_name_greeting_witness :
    handleRequest defaultSettings
        { method := "GET", path := defaultSettings.API_PREFIX ++ "/hello/" ++ "Alice" }
      = { status := 200, body := Body.hello { message := "Hello, Alice!" } } :=
  claim_hello_name_greeting defaultSettings "Alice" (by decide) (by decide)

/-- C2: for every configuration, a GET request to `/` is answered 200 with
body exactly `{message: "OK 🚀", version, environment}`, the `version` and
`environment` fields equal to the loaded configuration's values. -/
theorem claim_root_status_body (s : Settings) :
    handleRequest s { method := "GET", path := "/" }
      = { status := 200,
          body := Body.rootB
            { message := "OK 🚀", version := s.API_VERSION,
              environment := s.ENVIRONMENT } } := by
  unfold handleRequest
  rw [if_pos rfl]
  exact routeGET_root s

/-- C3: `get_settings` is idempotent and memoized for the process lifetime:
the n-th call returns the value of the first call, and the cache holds
exactly that value. -/
theorem claim_get_settings_memoized (s : Settings) (n : Nat) :
    (nthCall s n).1 = (nthCall s 0).1 ∧ (nthCall s n).2 = some ((nthCall s 0).1) := by
  induction n with
  | zero => exact ⟨rfl, rfl⟩
  | succ k ih =>
    constructor
    · show (get_settings s (nthCall s k).2).1 = (nthCall s 0).1
      rw [ih.2]
      rfl
    · show (get_settings s (nthCall s k).2).2 = some ((nthCall s 0).1)
      rw [ih.2]
      rfl

/-- C4: a `PORT` value that does not parse as an integer makes startup fail
with a parse error before the server serves; a well-formed or absent value
loads successfully, the absent case defaulting to 8080. -/
theorem claim_port_parse_startup (env : Env) :
    (∀ v, env "PORT" = some v → pythonInt v = none →
        startServer env
          = StartupResult.failed ("invalid literal for int() with base 10: " ++ v))
  ∧ (env "PORT" = none →
      ∃ st, startServer env = StartupResult.serving st ∧ st.PORT = 8080)
  ∧ (∀ v i, env "PORT" = some v → pythonInt v = some i →
      ∃ st, startServer env = StartupResult.serving st ∧ st.PORT = i) := by
  refine ⟨?_, ?_, ?_⟩
  · intro v hv hp
    have hg : getenv env "PORT" "8080" = v := by rw [getenv, hv]; rfl
    unfold startServer loadSettings
    rw [hg, hp]
  · intro hv
    have hg : getenv env "PORT" "8080" = "8080" := by rw [getenv, hv]; rfl
    unfold startServer loadSettings
    rw [hg]
    exact ⟨_, rfl, rfl⟩
  · intro v i hv hp
    have hg : getenv env "PORT" "8080" = v := by rw [getenv, hv]; rfl
    unfold startServer loadSettings
    rw [hg, hp]
    exact ⟨_, rfl, rfl⟩

/-- Witness for C4: `PORT=abc` fails startup with the parse error. -/
theorem claim_port_parse_startup_witness :
    startServer (portEnv "abc")
      = StartupResult.failed ("invalid literal for int() with base 10: " ++ "abc") :=
  (claim_port_parse_startup (portEnv "abc")).1 "abc" rfl rfl

/-- C5: the configured origin list is exactly the comma-split of the
`CORS_ORIGINS` value, in order: rejoining the pieces with commas restores the
input and no piece contains a comma; `https://a.com,https://b.com` yields
exactly those two origins in order, and an unset variable yields `["*"]`. -/
theorem claim_cors_comma_split :
    (∀ env st, loadSettings env = Except.ok st →
        st.CORS_ORIGINS
          = (splitComma ((env "CORS_ORIGINS").getD "*").data).map (fun l => ⟨l⟩))
  ∧ (∀ l : List Char, joinComma (splitComma l) = l)
  ∧ (∀ (l p : List Char), p ∈ splitComma l → ',' ∉ p)
  ∧ (∀ st, loadSettings (corsEnv "https://a.com,https://b.com") = Except.ok st →
      st.CORS_ORIGINS = ["https://a.com", "https://b.com"])
  ∧ (∀ st, loadSettings emptyEnv = Except.ok st → st.CORS_ORIGINS = ["*"]) := by
  have key : ∀ env st, loadSettings env = Except.ok st →
      st.CORS_ORIGINS
        = (splitComma ((env "CORS_ORIGINS").getD "*").data).map (fun l => ⟨l⟩) := by
    intro env st h
    exact (loadSettings_fields env st h).2.2.2.2.2.1
  refine ⟨key, joinComma_splitComma, splitComma_no_comma, ?_, ?_⟩
  · intro st h
    rw [key _ _ h]
    rfl
  · intro st h
    rw [key _ _ h]
    rfl

/-- Witness for C5: no `CORS_ORIGINS` variable yields the wildcard list. -/
theorem claim_cors_comma_split_witness : defaultSettings.CORS_ORIGINS = ["*"] :=
  claim_cors_comma_split.2.2.2.2 defaultSettings rfl

/-- C6: the debug flag is true exactly when the lowercased `DEBUG` value is
the string "true" ("TRUE" and "True" yield true; "1", "yes" and an unset
variable yield false), and the remaining string variables receive no
validation beyond the default. -/
theorem claim_debug_coercion :
    (∀ env st, loadSettings env = Except.ok st →
        (st.DEBUG = true ↔ pyLower ((env "DEBUG").getD "false") = "true"))
  ∧ (∀ st, loadSettings (debugEnv "TRUE") = Except.ok st → st.DEBUG = true)
  ∧ (∀ st, loadSettings (debugEnv "True") = Except.ok st → st.DEBUG = true)
  ∧ (∀ st, loadSettings (debugEnv "1") = Except.ok st → st.DEBUG = false)
  ∧ (∀ st, loadSettings (debugEnv "yes") = Except.ok st → st.DEBUG = false)
  ∧ (∀ st, loadSettings emptyEnv = Except.ok st → st.DEBUG = false)
  ∧ (∀ env st, loadSettings env = Except.ok st →
      st.ENVIRONMENT = (env "ENVIRONMENT").getD "development"
      ∧ st.LOG_LEVEL = (env "LOG_LEVEL").getD "INFO"
      ∧ st.API_PREFIX = (env "API_PREFIX").getD "/api"
      ∧ st.API_VERSION = (env "API_VERSION").getD "1.0.0"
      ∧ st.HOST = (env "HOST").getD "0.0.0.0") := by
  have key : ∀ env st, loadSettings env = Except.ok st →
      st.DEBUG = (pyLower (getenv env "DEBUG" "false") == "true") :=
    fun env st h => (loadSettings_fields env st h).2.1
  refine ⟨?_, ?_, ?_, ?_, ?_, ?_, ?_⟩
  · intro env st h
    rw [key _ _ h]
    exact beq_iff_eq
  · intro st h; rw [key _ _ h]; rfl
  · intro st h; rw [key _ _ h]; rfl
  · intro st h; rw [key _ _ h]; rfl
  · intro st h; rw [key _ _ h]; rfl
  · intro st h; rw [key _ _ h]; rfl
  · intro env st h
    obtain ⟨a, b, c, d, e, f, g, hp⟩ := loadSettings_fields env st h
    exact ⟨a, c, d, e, g⟩

/-- Witness for C6: an unset `DEBUG` variable defaults to false. -/
theorem claim_debug_coercion_witness : defaultSettings.DEBUG = false :=
  claim_debug_coercion.2.2.2.2.2.1 defaultSettings rfl

/-- C7: a GET request to `<prefix>/health` is always answered 200 with body
exactly `{status: "healthy", message: "OK"}`, for every configuration and
regardless of any prior requests. -/
theorem claim_health_always (s : Settings) (prior : List Request) :
    runRequests s (prior ++ [{ method := "GET", path := s.API_PREFIX ++ "/health" }])
      = runRequests s prior
        ++ [{ status := 200,
              body := Body.health { status := "healthy", message := "OK" } }] := by
  rw [runRequests_append]
  have h1 : handleRequest s { method := "GET", path := s.API_PREFIX ++ "/health" }
      = { status := 200, body := Body.health { status := "healthy", message := "OK" } } := by
    unfold handleRequest
    rw [if_pos rfl]
    exact routeGET_health s
  rw [show runRequests s [{ method := "GET", path := s.API_PREFIX ++ "/health" }]
      = [handleRequest s { method := "GET", path := s.API_PREFIX ++ "/health" }] from rfl, h1]

/-- C8: route registration binds health and greeting under the configured
prefix, the root handler unprefixed at `/`, the documentation interfaces at
exactly `<prefix>/docs` and `<prefix>/redoc`, and a request whose method and
path match no registered route is answered 404. -/
theorem claim_route_registration (s : Settings) :
    handleRequest s { method := "GET", path := "/" }
      = { status := 200, body := Body.rootB (root s) }
  ∧ handleRequest s { method := "GET", path := s.API_PREFIX ++ "/health" }
      = { status := 200, body := Body.health get_health }
  ∧ handleRequest s { method := "GET", path := s.API_PREFIX ++ "/hello" }
      = { status := 200, body := Body.hello get_hello }
  ∧ handleRequest s { method := "GET", path := s.API_PREFIX ++ "/docs" }
      = { status := 200, body := Body.docsPage }
  ∧ handleRequest s { method := "GET", path := s.API_PREFIX ++ "/redoc" }
      = { status := 200, body := Body.redocPage }
  ∧ (∀ r : Request,
      ¬ (r.method = "GET"
        ∧ (r.path = "/"
          ∨ r.path = s.API_PREFIX ++ "/docs"
          ∨ r.path = s.API_PREFIX ++ "/redoc"
          ∨ r.path = s.API_PREFIX ++ "/health"
          ∨ r.path = s.API_PREFIX ++ "/hello"
          ∨ ∃ name : String, name ≠ "" ∧ name.data.contains '/' = false
              ∧ r.path = s.API_PREFIX ++ "/hello/" ++ name)) →
      (handleRequest s r).status = 404) := by
  refine ⟨?_, ?_, ?_, ?_, ?_, ?_⟩
  · unfold handleRequest; rw [if_pos rfl]; exact routeGET_root s
  · unfold handleRequest; rw [if_pos rfl]; exact routeGET_health s
  · unfold handleRequest; rw [if_pos rfl]; exact routeGET_hello_static s
  · unfold handleRequest; rw [if_pos rfl]; exact routeGET_docs s
  · unfold handleRequest; rw [if_pos rfl]; exact routeGET_redoc s
  · intro r hnot
    unfold handleRequest
    by_cases hm : r.method = "GET"
    case neg => rw [if_neg hm]
    case pos =>
    rw [if_pos hm]
    unfold routeGET
    by_cases hq1 : r.path.data = "/".data
    · exact absurd ⟨hm, Or.inl (String.ext hq1)⟩ hnot
    rw [if_neg hq1]
    by_cases hq2 : r.path.data = (s.API_PREFIX ++ "/docs").data
    · exact absurd ⟨hm, Or.inr (Or.inl (String.ext hq2))⟩ hnot
    rw [if_neg hq2]
    by_cases hq3 : r.path.data = (s.API_PREFIX ++ "/redoc").data
    · exact absurd ⟨hm, Or.inr (Or.inr (Or.inl (String.ext hq3)))⟩ hnot
    rw [if_neg hq3]
    by_cases hq4 : r.path.data = (s.API_PREFIX ++ "/health").data
    · exact absurd ⟨hm, Or.inr (Or.inr (Or.inr (Or.inl (String.ext hq4))))⟩ hnot
    rw [if_neg hq4]
    by_cases hq5 : r.path.data = (s.API_PREFIX ++ "/hello").data
    · exact absurd ⟨hm, Or.inr (Or.inr (Or.inr (Or.inr (Or.inl (String.ext hq5)))))⟩ hnot
    rw [if_neg hq5]
    by_cases hq6 : ((s.API_PREFIX ++ "/hello/").data.isPrefixOf r.path.data) = true
    · rw [if_pos hq6]
      by_cases hq7 : (r.path.data.drop (s.API_PREFIX ++ "/hello/").data.length ≠ []
          ∧ (r.path.data.drop (s.API_PREFIX ++ "/hello/").data.length).contains '/' = false)
      · exfalso
        obtain ⟨t, ht⟩ := List.isPrefixOf_iff_prefix.mp hq6
        have hdrop : r.path.data.drop (s.API_PREFIX ++ "/hello/").data.length = t := by
          rw [← ht]
          exact List.drop_left _ _
        rw [hdrop] at hq7
        have hpath : r.path = s.API_PREFIX ++ "/hello/" ++ String.mk t := by
          apply String.ext
          rw [String.data_append]
          exact ht.symm
        have hne : String.mk t ≠ "" := fun he => hq7.1 (congrArg String.data he)
        exact hnot ⟨hm,
          Or.inr (Or.inr (Or.inr (Or.inr (Or.inr ⟨String.mk t, hne, hq7.2, hpath⟩))))⟩
      · rw [if_neg hq7]
    · rw [if_neg hq6]

/-- Witness for C8: a POST to the root path matches no registered route and
is answered 404. -/
theorem claim_route_registration_witness :
    (handleRequest defaultSettings { method := "POST", path := "/" }).status = 404 :=
  (claim_route_registration defaultSettings).2.2.2.2.2 { method := "POST", path := "/" }
    (fun h => absurd h.1 (by decide))

/-- C9: every handler is a deterministic total function of its request and
the immutable configuration: serving is the pointwise image of the request
list under the handler, and the response to a request does not depend on the
history of prior requests. -/
theorem claim_handlers_pure (s : Settings) :
    (∀ reqs, runRequests s reqs = reqs.map (handleRequest s))
  ∧ (∀ (l1 l2 : List Request) (r : Request),
      (runRequests s (l1 ++ [r])).getLast? = (runRequests s (l2 ++ [r])).getLast?) := by
  refine ⟨runRequests_eq_map s, ?_⟩
  intro l1 l2 r
  rw [runRequests_append, runRequests_append]
  simp [runRequests]

/-- C10: the comma-split of `CORS_ORIGINS` performs no trimming and no
filtering of empty items: the empty string yields `[""]` and `"a, b"` yields
`["a", " b"]` with the space kept. -/
theorem claim_cors_no_trim :
    (∀ st, loadSettings (corsEnv "") = Except.ok st → st.CORS_ORIGINS = [""])
  ∧ (∀ st, loadSettings (corsEnv "a, b") = Except.ok st → st.CORS_ORIGINS = ["a", " b"]) := by
  constructor
  · intro st h
    rw [(loadSettings_fields _ _ h).2.2.2.2.2.1]
    rfl
  · intro st h
    rw [(loadSettings_fields _ _ h).2.2.2.2.2.1]
    rfl

/-- Witness for C10: loading with the empty `CORS_ORIGINS` value yields the
one-element origin list holding the empty string. -/
theorem claim_cors_no_trim_witness :
    ({ ENVIRONMENT := "development", DEBUG := false, LOG_LEVEL := "INFO",
       API_PREFIX := "/api", API_VERSION := "1.0.0", CORS_ORIGINS := [""],
       HOST := "0.0.0.0", PORT := 8080 } : Settings).CORS_ORIGINS = [""] :=
  claim_cors_no_trim.1
    { ENVIRONMENT := "development", DEBUG := false, LOG_LEVEL := "INFO",
      API_PREFIX := "/api", API_VERSION := "1.0.0", CORS_ORIGINS := [""],
      HOST := "0.0.0.0", PORT := 8080 } rfl

end Claims

end FastApiCloud
